import Mathlib

/-!
Verification development for the CFD-system flow-visualization repository.

The repository loads a mesh, derives a coarse velocity field around it on a
regular grid (`VelocityField.generate` in `src/main.js`), and advects GPU
particles through that field (`ParticleSystem` plus the GLSL compute shaders
in `src/shaders.js`).  This file gives a shallow embedding of the
repository's own logic over the reals: three.js / WebGL library behaviour
(raycasting, texture sampling, the GLSL `rand` hash) enters as explicit
oracle parameters, and JavaScript mutation is modelled by explicit state
passing.
-/

noncomputable section

namespace CFD

/-- Three-component real vector, modelling `THREE.Vector3` and GLSL `vec3`. -/
@[ext]
structure Vec3 where
  x : ℝ
  y : ℝ
  z : ℝ

namespace Vec3

instance : Zero Vec3 := ⟨⟨0, 0, 0⟩⟩

instance : Add Vec3 := ⟨fun a b => ⟨a.x + b.x, a.y + b.y, a.z + b.z⟩⟩

instance : Sub Vec3 := ⟨fun a b => ⟨a.x - b.x, a.y - b.y, a.z - b.z⟩⟩

/-- Componentwise multiplication of a vector by a scalar, as in GLSL
`vec3 * float`. -/
instance : HMul Vec3 ℝ Vec3 := ⟨fun v s => ⟨v.x * s, v.y * s, v.z * s⟩⟩

/-- Componentwise subtraction of a scalar from a vector, as in GLSL
`vec3 - float`. -/
instance : HSub Vec3 ℝ Vec3 := ⟨fun v s => ⟨v.x - s, v.y - s, v.z - s⟩⟩

theorem zero_def : (0 : Vec3) = ⟨0, 0, 0⟩ := rfl

theorem add_def (a b : Vec3) : a + b = ⟨a.x + b.x, a.y + b.y, a.z + b.z⟩ := rfl

theorem sub_def (a b : Vec3) : a - b = ⟨a.x - b.x, a.y - b.y, a.z - b.z⟩ := rfl

theorem mul_r_def (v : Vec3) (s : ℝ) : v * s = ⟨v.x * s, v.y * s, v.z * s⟩ := rfl

theorem sub_r_def (v : Vec3) (s : ℝ) : v - s = ⟨v.x - s, v.y - s, v.z - s⟩ := rfl

end Vec3

/-- GLSL `dot(v, v)`, the squared Euclidean length. -/
def normSq (v : Vec3) : ℝ := v.x * v.x + v.y * v.y + v.z * v.z

/-- Source: `THREE.Vector3.length()` / GLSL `length`: the Euclidean length. -/
def vlength (v : Vec3) : ℝ := Real.sqrt (normSq v)

/-- Source: `THREE.Vector3.normalize()`: `divideScalar(length() || 1)` — division by
the length, with the JavaScript `|| 1` guard leaving a zero-length vector
unchanged. -/
def threeNormalize (v : Vec3) : Vec3 :=
  if vlength v = 0 then v else ⟨v.x / vlength v, v.y / vlength v, v.z / vlength v⟩

/-- GLSL `normalize`: componentwise division by the length (undefined in GLSL
for the zero vector; here the real-division convention applies). -/
def glslNormalize (v : Vec3) : Vec3 :=
  ⟨v.x / vlength v, v.y / vlength v, v.z / vlength v⟩

/-! ## VelocityField.generate (src/main.js, VelocityField.js document) -/

/-- The flow-method selector (`method === 'potential'` / `'radial'` /
anything else falls through both branches). -/
inductive FlowMethod where
  | potential
  | radial
  | other

/-- The mesh data `VelocityField.generate` consults: the geometry's
axis-aligned bounding box (`mesh.geometry.boundingBox`), and an oracle
`hits origin dir` for `raycaster.intersectObject(mesh, true).length` — the
number of ray/mesh intersections found by the three.js raycaster for the ray
starting at `origin` in direction `dir`. -/
structure MeshInfo where
  bboxMin : Vec3
  bboxMax : Vec3
  hits : Vec3 → Vec3 → ℕ

/-- Source: `THREE.Box3.containsPoint`: closed-box membership, componentwise. -/
def box3Contains (bmin bmax p : Vec3) : Prop :=
  bmin.x ≤ p.x ∧ p.x ≤ bmax.x ∧ bmin.y ≤ p.y ∧ p.y ≤ bmax.y ∧
    bmin.z ≤ p.z ∧ p.z ≤ bmax.z

instance (bmin bmax p : Vec3) : Decidable (box3Contains bmin bmax p) := by
  unfold box3Contains; infer_instance

/-- The fixed raycast direction `rayDir = (0, 1, 0)` of
`VelocityField.generate`. -/
def rayDir : Vec3 := ⟨0, 1, 0⟩

/-- The inside/outside classification of `VelocityField.generate`:
`inside` is set exactly when a mesh (with a computed bounding box) is
present, the grid point lies in the geometry's bounding box, and the
raycast from the point in direction `rayDir` reports an odd number of
intersections. -/
def insideMesh (mesh : Option MeshInfo) (pos : Vec3) : Prop :=
  match mesh with
  | none => False
  | some m => box3Contains m.bboxMin m.bboxMax pos ∧ m.hits pos rayDir % 2 = 1

instance (mesh : Option MeshInfo) (pos : Vec3) : Decidable (insideMesh mesh pos) := by
  unfold insideMesh; cases mesh <;> infer_instance

/-- Source: `boxMin` of the sampling grid in `VelocityField.generate`. -/
def fieldBoxMin : Vec3 := ⟨-1, -1, -1⟩

/-- Source: `boxMax` of the sampling grid in `VelocityField.generate`. -/
def fieldBoxMax : Vec3 := ⟨1, 1, 1⟩

/-- Source: `step = (boxMax - boxMin) / (resolution - 1)`, componentwise, with the
subtraction `resolution - 1` performed on reals as in JavaScript. -/
def fieldStep (res : ℕ) : Vec3 :=
  ⟨(fieldBoxMax.x - fieldBoxMin.x) / ((res : ℝ) - 1),
   (fieldBoxMax.y - fieldBoxMin.y) / ((res : ℝ) - 1),
   (fieldBoxMax.z - fieldBoxMin.z) / ((res : ℝ) - 1)⟩

/-- The grid-cell position `pos.set(boxMin.x + x*step.x, boxMin.y + y*step.y,
boxMin.z + z*step.z)` of `VelocityField.generate`. -/
def gridPos (res x y z : ℕ) : Vec3 :=
  ⟨fieldBoxMin.x + (x : ℝ) * (fieldStep res).x,
   fieldBoxMin.y + (y : ℝ) * (fieldStep res).y,
   fieldBoxMin.z + (z : ℝ) * (fieldStep res).z⟩

/-- The velocity written for one grid cell by `VelocityField.generate`:
`vx,vy,vz` default to `0`, the `potential` branch adds `1.0` to `vx`, the
`radial` branch writes the normalized position when `r.length() > 0.1`, and
the obstacle-avoidance test zeroes all three components when the point is
classified inside the mesh. -/
def cellVelocity (mesh : Option MeshInfo) (method : FlowMethod) (pos : Vec3) : Vec3 :=
  let v : Vec3 :=
    match method with
    | .potential => ⟨0 + 1.0, 0, 0⟩
    | .radial =>
        if vlength pos > 0.1 then threeNormalize pos else ⟨0, 0, 0⟩
    | .other => ⟨0, 0, 0⟩
  if insideMesh mesh pos then ⟨0, 0, 0⟩ else v

/-- The four RGBA entries `data[stride..stride+3] = (vx, vy, vz, 0)` written
for cell `(x, y, z)`. -/
def cellEntries (mesh : Option MeshInfo) (method : FlowMethod) (res x y z : ℕ) :
    List ℝ :=
  let v := cellVelocity mesh method (gridPos res x y z)
  [v.x, v.y, v.z, 0]

/-- The flat `Float32Array` filled by the triple-nested loop of
`VelocityField.generate`: `z` outermost, `y`, then `x`, each cell appending
its four RGBA entries at `stride = 4 * (z*res*res + y*res + x)`. -/
def generateData (mesh : Option MeshInfo) (method : FlowMethod) (res : ℕ) :
    List ℝ :=
  (List.range res).flatMap fun z =>
    (List.range res).flatMap fun y =>
      (List.range res).flatMap fun x => cellEntries mesh method res x y z

/-- Length of a `flatMap` over `List.range` whose pieces all have the same
length. -/
theorem length_flatMap_range {α : Type} (f : ℕ → List α) (L n : ℕ)
    (hL : ∀ k, k < n → (f k).length = L) :
    ((List.range n).flatMap f).length = n * L := by
  induction n with
  | zero => simp
  | succ n ih =>
    rw [List.range_succ, List.flatMap_append, List.length_append,
      List.flatMap_singleton]
    rw [ih fun k hk => hL k (Nat.lt_succ_of_lt hk), hL n (Nat.lt_succ_self n)]
    ring

/-- Indexing into a `flatMap` over `List.range` whose pieces all have the
same length `L`: entry `i * L + j` comes from piece `i` at offset `j`. -/
theorem getElem?_flatMap_range {α : Type} (f : ℕ → List α) (L n i j : ℕ)
    (hL : ∀ k, k < n → (f k).length = L) (hi : i < n) (hj : j < L) :
    ((List.range n).flatMap f)[i * L + j]? = (f i)[j]? := by
  induction n with
  | zero => omega
  | succ n ih =>
    rw [List.range_succ, List.flatMap_append, List.flatMap_singleton]
    rcases Nat.lt_or_ge i n with h | h
    · have hlen : ((List.range n).flatMap f).length = n * L :=
        length_flatMap_range f L n fun k hk => hL k (Nat.lt_succ_of_lt hk)
      have hidx : i * L + j < ((List.range n).flatMap f).length := by
        rw [hlen]
        calc i * L + j < i * L + L := by omega
          _ = (i + 1) * L := by ring
          _ ≤ n * L := Nat.mul_le_mul_right L h
      rw [List.getElem?_append_left hidx]
      exact ih (fun k hk => hL k (Nat.lt_succ_of_lt hk)) h
    · have hin : i = n := by omega
      subst hin
      have hlen : ((List.range i).flatMap f).length = i * L :=
        length_flatMap_range f L i fun k hk => hL k (Nat.lt_succ_of_lt hk)
      have hge : ((List.range i).flatMap f).length ≤ i * L + j := by omega
      rw [List.getElem?_append_right hge, hlen]
      congr 1
      omega

theorem cellEntries_length (mesh : Option MeshInfo) (method : FlowMethod)
    (res x y z : ℕ) : (cellEntries mesh method res x y z).length = 4 := rfl

/-- The generated data array has exactly `4 * res³` entries. -/
theorem generateData_length (mesh : Option MeshInfo) (method : FlowMethod)
    (res : ℕ) : (generateData mesh method res).length = 4 * (res * res * res) := by
  unfold generateData
  rw [length_flatMap_range _ (res * (res * 4)) res ?_]
  · ring
  · intro z _
    rw [length_flatMap_range _ (res * 4) res ?_]
    intro y _
    rw [length_flatMap_range _ 4 res ?_]
    intro x _
    exact cellEntries_length mesh method res x y z

/-- Entry `4 * (z*res² + y*res + x) + c` of the generated array is entry `c`
of the RGBA quadruple written for cell `(x, y, z)`. -/
theorem generateData_getElem? (mesh : Option MeshInfo) (method : FlowMethod)
    (res x y z c : ℕ) (hx : x < res) (hy : y < res) (hz : z < res) (hc : c < 4) :
    (generateData mesh method res)[4 * (z * res * res + y * res + x) + c]? =
      (cellEntries mesh method res x y z)[c]? := by
  unfold generateData
  have hidx : 4 * (z * res * res + y * res + x) + c =
      z * (res * (res * 4)) + (y * (res * 4) + (x * 4 + c)) := by ring
  rw [hidx]
  rw [getElem?_flatMap_range _ (res * (res * 4)) res z _ ?_ hz ?_]
  · rw [getElem?_flatMap_range _ (res * 4) res y _ ?_ hy ?_]
    · rw [getElem?_flatMap_range _ 4 res x _ ?_ hx hc]
      intro k _
      exact cellEntries_length mesh method res k y z
    · intro k _
      rw [length_flatMap_range _ 4 res ?_]
      intro x2 _
      exact cellEntries_length mesh method res x2 k z
    · calc x * 4 + c < x * 4 + 4 := by omega
        _ = (x + 1) * 4 := by ring
        _ ≤ res * 4 := Nat.mul_le_mul_right 4 hx
  · intro k _
    rw [length_flatMap_range _ (res * 4) res ?_]
    intro y2 _
    rw [length_flatMap_range _ 4 res ?_]
    intro x2 _
    exact cellEntries_length mesh method res x2 y2 k
  · have h1 : x * 4 + c < res * 4 := by
      calc x * 4 + c < (x + 1) * 4 := by omega
        _ ≤ res * 4 := Nat.mul_le_mul_right 4 hx
    calc y * (res * 4) + (x * 4 + c) < y * (res * 4) + res * 4 := by omega
      _ = (y + 1) * (res * 4) := by ring
      _ ≤ res * (res * 4) := Nat.mul_le_mul_right (res * 4) hy

/-- Unfolding of `cellVelocity` for the `potential` method. -/
theorem cellVelocity_potential (mesh : Option MeshInfo) (pos : Vec3) :
    cellVelocity mesh FlowMethod.potential pos =
      if insideMesh mesh pos then ⟨0, 0, 0⟩ else ⟨0 + 1.0, 0, 0⟩ := rfl

/-- Unfolding of `cellVelocity` for the `radial` method. -/
theorem cellVelocity_radial (mesh : Option MeshInfo) (pos : Vec3) :
    cellVelocity mesh FlowMethod.radial pos =
      if insideMesh mesh pos then ⟨0, 0, 0⟩
      else if vlength pos > 0.1 then threeNormalize pos else ⟨0, 0, 0⟩ := rfl

/-- C1: in `VelocityField.generate`, a grid point is classified as inside
the mesh if and only if it lies inside the mesh geometry's axis-aligned
bounding box and the raycast from the point in direction `(0, 1, 0)`
intersects the mesh an odd number of times; every grid point so classified
stores velocity `(0, 0, 0)`, whatever the selected flow method. -/
theorem inside_classification_and_zero_velocity (m : MeshInfo)
    (method : FlowMethod) (res x y z : ℕ) :
    (insideMesh (some m) (gridPos res x y z) ↔
      box3Contains m.bboxMin m.bboxMax (gridPos res x y z) ∧
        m.hits (gridPos res x y z) rayDir % 2 = 1)
    ∧ (insideMesh (some m) (gridPos res x y z) →
        cellVelocity (some m) method (gridPos res x y z) = ⟨0, 0, 0⟩) := by
  refine ⟨Iff.rfl, fun h => ?_⟩
  have hv : cellVelocity (some m) method (gridPos res x y z) =
      if insideMesh (some m) (gridPos res x y z) then ⟨0, 0, 0⟩
      else cellVelocity none method (gridPos res x y z) := by
    cases method <;>
      simp only [cellVelocity, insideMesh, if_neg (fun h => h : ¬False)]
  rw [hv, if_pos h]

/-- Witness for C1: with a bounding box `[-1,1]³` and a raycast oracle
reporting one hit everywhere, the center grid point of a 3³ grid is
classified inside and stores velocity `(0,0,0)` under the radial method. -/
theorem inside_classification_witness :
    insideMesh (some ⟨⟨-1, -1, -1⟩, ⟨1, 1, 1⟩, fun _ _ => 1⟩) (gridPos 3 1 1 1)
    ∧ cellVelocity (some ⟨⟨-1, -1, -1⟩, ⟨1, 1, 1⟩, fun _ _ => 1⟩)
        FlowMethod.radial (gridPos 3 1 1 1) = ⟨0, 0, 0⟩ := by
  have h : insideMesh (some ⟨⟨-1, -1, -1⟩, ⟨1, 1, 1⟩, fun _ _ => 1⟩)
      (gridPos 3 1 1 1) := by
    refine ⟨?_, rfl⟩
    unfold box3Contains gridPos fieldStep fieldBoxMin fieldBoxMax
    norm_num
  exact ⟨h, (inside_classification_and_zero_velocity _ FlowMethod.radial 3 1 1 1).2 h⟩

/-- C3: for the `radial` flow method, a grid point farther than `0.1` from
the origin that is not classified inside the mesh stores the position
normalized to unit length, `pos / |pos|`; a grid point at distance at most
`0.1` stores `(0, 0, 0)`, so the normalization is never evaluated there. -/
theorem radial_flow_velocity (mesh : Option MeshInfo) (res x y z : ℕ) :
    (vlength (gridPos res x y z) > 0.1 → ¬ insideMesh mesh (gridPos res x y z) →
      cellVelocity mesh FlowMethod.radial (gridPos res x y z) =
        ⟨(gridPos res x y z).x / vlength (gridPos res x y z),
         (gridPos res x y z).y / vlength (gridPos res x y z),
         (gridPos res x y z).z / vlength (gridPos res x y z)⟩)
    ∧ (vlength (gridPos res x y z) ≤ 0.1 →
        cellVelocity mesh FlowMethod.radial (gridPos res x y z) = ⟨0, 0, 0⟩) := by
  constructor
  · intro hd hin
    rw [cellVelocity_radial, if_neg hin, if_pos hd]
    unfold threeNormalize
    rw [if_neg (ne_of_gt (lt_trans (by norm_num) hd))]
  · intro hd
    rw [cellVelocity_radial]
    have hnd : ¬ (vlength (gridPos res x y z) > 0.1) := not_lt.mpr hd
    by_cases hin : insideMesh mesh (gridPos res x y z)
    · rw [if_pos hin]
    · rw [if_neg hin, if_neg hnd]

/-- Witness for C3: on a 3³ grid with no mesh, the grid point `(1,0,0)` (at
distance `1` from the origin) stores its normalization, and the center grid
point `(0,0,0)` (at distance `0`) stores the zero velocity. -/
theorem radial_flow_witness :
    cellVelocity none FlowMethod.radial (gridPos 3 2 1 1) =
      ⟨(gridPos 3 2 1 1).x / vlength (gridPos 3 2 1 1),
       (gridPos 3 2 1 1).y / vlength (gridPos 3 2 1 1),
       (gridPos 3 2 1 1).z / vlength (gridPos 3 2 1 1)⟩
    ∧ cellVelocity none FlowMethod.radial (gridPos 3 1 1 1) = ⟨0, 0, 0⟩ := by
  have hg1 : gridPos 3 2 1 1 = ⟨1, 0, 0⟩ := by
    unfold gridPos fieldStep fieldBoxMin fieldBoxMax
    norm_num
  have hg2 : gridPos 3 1 1 1 = ⟨0, 0, 0⟩ := by
    unfold gridPos fieldStep fieldBoxMin fieldBoxMax
    norm_num
  have h1 : vlength (gridPos 3 2 1 1) > 0.1 := by
    rw [hg1]
    have hn : normSq ⟨1, 0, 0⟩ = 1 := by unfold normSq; norm_num
    unfold vlength
    rw [hn, Real.sqrt_one]
    norm_num
  have h2 : vlength (gridPos 3 1 1 1) ≤ 0.1 := by
    rw [hg2]
    have hn : normSq ⟨0, 0, 0⟩ = 0 := by unfold normSq; norm_num
    unfold vlength
    rw [hn, Real.sqrt_zero]
    norm_num
  exact ⟨(radial_flow_velocity none 3 2 1 1).1 h1 (fun h => h),
    (radial_flow_velocity none 3 1 1 1).2 h2⟩

/-- C4: for the `potential` flow method, every grid point not classified
inside the mesh stores exactly `(1, 0, 0)`; the triple loop writes all
`res³` cells, cell `(x, y, z)` sampling position
`(-1,-1,-1) + (x,y,z) * (2/(res-1))` and landing at array offset
`4 * (z*res² + y*res + x)`, with the fourth (alpha) entry always `0`. -/
theorem potential_flow_layout (mesh : Option MeshInfo) (res : ℕ)
    (hres : 2 ≤ res) :
    (generateData mesh FlowMethod.potential res).length = 4 * (res * res * res)
    ∧ ∀ x y z : ℕ, x < res → y < res → z < res →
        gridPos res x y z =
          ⟨-1 + (x : ℝ) * (2 / ((res : ℝ) - 1)),
           -1 + (y : ℝ) * (2 / ((res : ℝ) - 1)),
           -1 + (z : ℝ) * (2 / ((res : ℝ) - 1))⟩
        ∧ (¬ insideMesh mesh (gridPos res x y z) →
            cellVelocity mesh FlowMethod.potential (gridPos res x y z) = ⟨1, 0, 0⟩)
        ∧ (generateData mesh FlowMethod.potential res)[4 * (z * res * res + y * res + x)]? =
            some (cellVelocity mesh FlowMethod.potential (gridPos res x y z)).x
        ∧ (generateData mesh FlowMethod.potential res)[4 * (z * res * res + y * res + x) + 1]? =
            some (cellVelocity mesh FlowMethod.potential (gridPos res x y z)).y
        ∧ (generateData mesh FlowMethod.potential res)[4 * (z * res * res + y * res + x) + 2]? =
            some (cellVelocity mesh FlowMethod.potential (gridPos res x y z)).z
        ∧ (generateData mesh FlowMethod.potential res)[4 * (z * res * res + y * res + x) + 3]? =
            some (0 : ℝ) := by
  refine ⟨generateData_length mesh FlowMethod.potential res, fun x y z hx hy hz => ?_⟩
  have h0 := generateData_getElem? mesh FlowMethod.potential res x y z 0 hx hy hz (by omega)
  have h1 := generateData_getElem? mesh FlowMethod.potential res x y z 1 hx hy hz (by omega)
  have h2 := generateData_getElem? mesh FlowMethod.potential res x y z 2 hx hy hz (by omega)
  have h3 := generateData_getElem? mesh FlowMethod.potential res x y z 3 hx hy hz (by omega)
  refine ⟨?_, ?_, ?_, ?_, ?_, ?_⟩
  · unfold gridPos fieldStep fieldBoxMin fieldBoxMax
    norm_num
  · intro hin
    rw [cellVelocity_potential, if_neg hin]
    norm_num
  · simpa [cellEntries] using h0
  · simpa [cellEntries] using h1
  · simpa [cellEntries] using h2
  · simpa [cellEntries] using h3

/-! ## Particle compute shaders (src/shaders.js)

`src/shaders.js` holds two generations of the GLSL compute pair: a
plane-emitter / streamline pair (`emitterWidth`/`emitterHeight`, lifespan
variance `0.9 + 0.1*rand`, blend factor `0.3`) and a shaped-emitter pair
(`emissionShape`/`emissionRadius`, variance `0.8 + 0.4*rand`, blend factor
`0.2`).  Both are embedded.  The GLSL hash `rand(vec2)` and the trilinear
3D-texture lookup `texture(velocityField, tc)` are oracle parameters. -/

/-- Strictly outside the axis-aligned box `[bmin, bmax]`, exactly the
six-way comparison chain of the position shaders. -/
def outsideBounds (bmin bmax p : Vec3) : Prop :=
  p.x < bmin.x ∨ p.x > bmax.x ∨ p.y < bmin.y ∨ p.y > bmax.y ∨
    p.z < bmin.z ∨ p.z > bmax.z

instance (bmin bmax p : Vec3) : Decidable (outsideBounds bmin bmax p) := by
  unfold outsideBounds; infer_instance

/-- Uniforms of the plane-emitter position compute shader. -/
structure PlanePosUniforms where
  time : ℝ
  delta : ℝ
  maxAge : ℝ
  emitterPos : Vec3
  emitterWidth : ℝ
  emitterHeight : ℝ
  boundsMin : Vec3
  boundsMax : Vec3
  speedMultiplier : ℝ

/-- The respawn position of the plane-emitter position shader: a point on
the YZ plane emitter, jittered by three `rand` draws seeded from `uv` and
`time`. -/
def planeSpawnPos (rand : ℝ → ℝ → ℝ) (u : PlanePosUniforms) (uv : ℝ × ℝ) : Vec3 :=
  let r1 := rand (uv.1 + u.time) (uv.2 + u.time)
  let r2 := rand (uv.1 + u.time * 1.1) (uv.2 + u.time * 1.1)
  let r3 := rand (uv.1 + u.time * 1.2) (uv.2 + u.time * 1.2)
  let y := u.emitterPos.y + (uv.2 - 0.5) * u.emitterHeight
  let z := u.emitterPos.z + (uv.1 - 0.5) * u.emitterWidth
  ⟨u.emitterPos.x + r1 * 0.05, y + r2 * 0.01, z + r3 * 0.01⟩

/-- One fragment of the plane-emitter `particleComputeShaderPosition`:
advance position and age, then respawn on expiry or bounds exit. -/
def positionStepPlane (rand : ℝ → ℝ → ℝ) (u : PlanePosUniforms)
    (uv : ℝ × ℝ) (pos0 vel : Vec3) (age0 : ℝ) : Vec3 × ℝ :=
  let pos := pos0 + vel * u.delta * u.speedMultiplier
  let age := age0 + u.delta * 60.0
  let myMaxAge := u.maxAge * (0.9 + 0.1 * rand uv.1 uv.2)
  if age ≥ myMaxAge ∨ outsideBounds u.boundsMin u.boundsMax pos then
    (planeSpawnPos rand u uv, 0.0)
  else
    (pos, age)

/-- Uniforms of the shaped-emitter position compute shader. -/
structure ShapePosUniforms where
  time : ℝ
  delta : ℝ
  maxAge : ℝ
  emitterPos : Vec3
  emissionRate : ℝ
  boundsMin : Vec3
  boundsMax : Vec3
  speedMultiplier : ℝ
  emissionShape : ℤ
  emissionRadius : ℝ

/-- The respawn position of the shaped-emitter position shader: a jittered
point (shape 0), a disc (shape 1) or a ball (otherwise) around
`emitterPos`. -/
def shapeSpawnPos (rand : ℝ → ℝ → ℝ) (u : ShapePosUniforms) (uv : ℝ × ℝ) : Vec3 :=
  let r1 := rand (uv.1 + u.time) (uv.2 + u.time)
  let r2 := rand (uv.1 + u.time * 1.1) (uv.2 + u.time * 1.1)
  let r3 := rand (uv.1 + u.time * 1.2) (uv.2 + u.time * 1.2)
  if u.emissionShape = 0 then
    u.emitterPos + ((⟨r1, r2, r3⟩ : Vec3) - (0.5 : ℝ)) * (0.01 : ℝ)
  else if u.emissionShape = 1 then
    let angle := r1 * 6.28318
    let r := Real.sqrt r2 * u.emissionRadius
    u.emitterPos + ⟨0.0, r * Real.cos angle, r * Real.sin angle⟩
  else
    let dir : Vec3 := (⟨r1, r2, r3⟩ : Vec3) - (0.5 : ℝ)
    let dir2 := if vlength dir > 0.001 then glslNormalize dir else dir
    let r := r1 ^ (0.333333 : ℝ) * u.emissionRadius
    u.emitterPos + dir2 * r

/-- One fragment of the shaped-emitter `particleComputeShaderPosition`. -/
def positionStepShape (rand : ℝ → ℝ → ℝ) (u : ShapePosUniforms)
    (uv : ℝ × ℝ) (pos0 vel : Vec3) (age0 : ℝ) : Vec3 × ℝ :=
  let pos := pos0 + vel * u.delta * u.speedMultiplier
  let age := age0 + u.delta * 60.0
  let myMaxAge := u.maxAge * (0.8 + 0.4 * rand uv.1 uv.2)
  if age ≥ myMaxAge ∨ outsideBounds u.boundsMin u.boundsMax pos then
    (shapeSpawnPos rand u uv, 0.0)
  else
    (pos, age)

/-- C2: in both position compute shaders, the particle's position is
advanced by `vel * delta * speedMultiplier` and its age by `delta * 60`;
it is respawned — position reset to the emitter's spawn point and age reset
to exactly `0` — precisely when the advanced age reaches its per-particle
randomized maximum age or the advanced position leaves the bounds box, and
otherwise the advanced position and age are kept. -/
theorem position_step_respawn (rand : ℝ → ℝ → ℝ) (u1 : PlanePosUniforms)
    (u2 : ShapePosUniforms) (uv : ℝ × ℝ) (pos0 vel : Vec3) (age0 : ℝ) :
    (age0 + u1.delta * 60.0 ≥ u1.maxAge * (0.9 + 0.1 * rand uv.1 uv.2) ∨
        outsideBounds u1.boundsMin u1.boundsMax
          (pos0 + vel * u1.delta * u1.speedMultiplier) →
      positionStepPlane rand u1 uv pos0 vel age0 = (planeSpawnPos rand u1 uv, 0.0))
    ∧ (¬ (age0 + u1.delta * 60.0 ≥ u1.maxAge * (0.9 + 0.1 * rand uv.1 uv.2) ∨
        outsideBounds u1.boundsMin u1.boundsMax
          (pos0 + vel * u1.delta * u1.speedMultiplier)) →
      positionStepPlane rand u1 uv pos0 vel age0 =
        (pos0 + vel * u1.delta * u1.speedMultiplier, age0 + u1.delta * 60.0))
    ∧ (age0 + u2.delta * 60.0 ≥ u2.maxAge * (0.8 + 0.4 * rand uv.1 uv.2) ∨
        outsideBounds u2.boundsMin u2.boundsMax
          (pos0 + vel * u2.delta * u2.speedMultiplier) →
      positionStepShape rand u2 uv pos0 vel age0 = (shapeSpawnPos rand u2 uv, 0.0))
    ∧ (¬ (age0 + u2.delta * 60.0 ≥ u2.maxAge * (0.8 + 0.4 * rand uv.1 uv.2) ∨
        outsideBounds u2.boundsMin u2.boundsMax
          (pos0 + vel * u2.delta * u2.speedMultiplier)) →
      positionStepShape rand u2 uv pos0 vel age0 =
        (pos0 + vel * u2.delta * u2.speedMultiplier, age0 + u2.delta * 60.0)) := by
  refine ⟨fun h => ?_, fun h => ?_, fun h => ?_, fun h => ?_⟩
  · unfold positionStepPlane
    simp only [if_pos h]
  · unfold positionStepPlane
    simp only [if_neg h]
  · unfold positionStepShape
    simp only [if_pos h]
  · unfold positionStepShape
    simp only [if_neg h]

/-- Witness for C2: with the zero `rand` oracle, a zero-extent bounds box
and `maxAge = 0` force an immediate respawn; with `maxAge = 1` the advanced
state is kept. -/
theorem position_step_witness :
    positionStepPlane (fun _ _ => 0)
        ⟨0, 0, 0, ⟨0, 0, 0⟩, 0, 0, ⟨0, 0, 0⟩, ⟨0, 0, 0⟩, 0⟩
        (0, 0) ⟨0, 0, 0⟩ ⟨0, 0, 0⟩ 0 =
      (planeSpawnPos (fun _ _ => 0)
        ⟨0, 0, 0, ⟨0, 0, 0⟩, 0, 0, ⟨0, 0, 0⟩, ⟨0, 0, 0⟩, 0⟩ (0, 0), 0.0)
    ∧ positionStepPlane (fun _ _ => 0)
        ⟨0, 0, 1, ⟨0, 0, 0⟩, 0, 0, ⟨0, 0, 0⟩, ⟨0, 0, 0⟩, 0⟩
        (0, 0) ⟨0, 0, 0⟩ ⟨0, 0, 0⟩ 0 =
      (⟨0, 0, 0⟩ + (⟨0, 0, 0⟩ : Vec3) * (0 : ℝ) * (0 : ℝ), 0 + (0 : ℝ) * 60.0)
    ∧ positionStepShape (fun _ _ => 0)
        ⟨0, 0, 0, ⟨0, 0, 0⟩, 0, ⟨0, 0, 0⟩, ⟨0, 0, 0⟩, 0, 0, 0⟩
        (0, 0) ⟨0, 0, 0⟩ ⟨0, 0, 0⟩ 0 =
      (shapeSpawnPos (fun _ _ => 0)
        ⟨0, 0, 0, ⟨0, 0, 0⟩, 0, ⟨0, 0, 0⟩, ⟨0, 0, 0⟩, 0, 0, 0⟩ (0, 0), 0.0) := by
  refine ⟨(position_step_respawn (fun _ _ => 0) _
      ⟨0, 0, 0, ⟨0, 0, 0⟩, 0, ⟨0, 0, 0⟩, ⟨0, 0, 0⟩, 0, 0, 0⟩ (0, 0) ⟨0, 0, 0⟩ ⟨0, 0, 0⟩ 0).1
      (Or.inl (by norm_num)),
    (position_step_respawn (fun _ _ => 0) _
      ⟨0, 0, 0, ⟨0, 0, 0⟩, 0, ⟨0, 0, 0⟩, ⟨0, 0, 0⟩, 0, 0, 0⟩ (0, 0) ⟨0, 0, 0⟩ ⟨0, 0, 0⟩ 0).2.1
      ?_,
    (position_step_respawn (fun _ _ => 0)
      ⟨0, 0, 0, ⟨0, 0, 0⟩, 0, 0, ⟨0, 0, 0⟩, ⟨0, 0, 0⟩, 0⟩ _ (0, 0) ⟨0, 0, 0⟩ ⟨0, 0, 0⟩ 0).2.2.1
      (Or.inl (by norm_num))⟩
  rw [not_or]
  constructor
  · norm_num
  · norm_num [outsideBounds, Vec3.add_def, Vec3.mul_r_def]

/-- The texture coordinate `(pos - gridMin) / (gridMax - gridMin)`,
componentwise, of both velocity compute shaders. -/
def texCoordOf (gridMin gridMax pos : Vec3) : Vec3 :=
  ⟨(pos.x - gridMin.x) / (gridMax.x - gridMin.x),
   (pos.y - gridMin.y) / (gridMax.y - gridMin.y),
   (pos.z - gridMin.z) / (gridMax.z - gridMin.z)⟩

/-- The in-grid test of both velocity compute shaders: all three texture
coordinates in `[0, 1]`. -/
def inUnitCube (t : Vec3) : Prop :=
  t.x ≥ 0.0 ∧ t.x ≤ 1.0 ∧ t.y ≥ 0.0 ∧ t.y ≤ 1.0 ∧ t.z ≥ 0.0 ∧ t.z ≤ 1.0

instance (t : Vec3) : Decidable (inUnitCube t) := by
  unfold inUnitCube; infer_instance

/-- GLSL `mix(x, y, a) = x*(1-a) + y*a`, componentwise. -/
def mix3 (a b : Vec3) (t : ℝ) : Vec3 :=
  ⟨a.x * (1 - t) + b.x * t, a.y * (1 - t) + b.y * t, a.z * (1 - t) + b.z * t⟩

/-- Uniforms of the streamline velocity compute shader (the
`dragCoefficient` uniform is declared but unused in the shader body). -/
structure StreamVelUniforms where
  time : ℝ
  delta : ℝ
  gridMin : Vec3
  gridMax : Vec3
  initialDirection : Vec3
  initialSpeed : ℝ
  dragCoefficient : ℝ

/-- One fragment of the streamline `particleComputeShaderVelocity`:
newly spawned particles (age within two 60fps frames of `delta`) get
`normalize(initialDirection) * initialSpeed`; then, inside the grid, the
velocity is blended toward the sampled field value with factor `0.3`. -/
def velocityStepStream (sample : Vec3 → Vec3) (u : StreamVelUniforms)
    (pos : Vec3) (age : ℝ) (vel0 : Vec3) : Vec3 :=
  let vel := if age ≤ u.delta * 60.0 * 2.0 then
      glslNormalize u.initialDirection * u.initialSpeed
    else vel0
  let texCoord := texCoordOf u.gridMin u.gridMax pos
  if inUnitCube texCoord then
    let fieldVel := sample texCoord
    mix3 vel fieldVel 0.3
  else
    vel

/-- Uniforms of the shaped-emitter velocity compute shader. -/
structure ShapeVelUniforms where
  time : ℝ
  delta : ℝ
  gridMin : Vec3
  gridMax : Vec3
  initialDirection : Vec3
  initialSpeed : ℝ

/-- One fragment of the shaped-emitter `particleComputeShaderVelocity`:
spawn condition `age <= 0.0 || age < delta * 60.0 * 1.5`, blend factor
`0.2`. -/
def velocityStepShape (sample : Vec3 → Vec3) (u : ShapeVelUniforms)
    (pos : Vec3) (age : ℝ) (vel0 : Vec3) : Vec3 :=
  let vel := if age ≤ 0.0 ∨ age < u.delta * 60.0 * 1.5 then
      glslNormalize u.initialDirection * u.initialSpeed
    else vel0
  let texCoord := texCoordOf u.gridMin u.gridMax pos
  if inUnitCube texCoord then
    let fieldVel := sample texCoord
    mix3 vel fieldVel 0.2
  else
    vel

/-- C5: in both velocity compute shaders the velocity is blended toward the
sampled field value (with fixed factors `0.3` resp. `0.2`) exactly when the
position mapped into grid coordinates lies in `[0,1]³`; outside the grid a
particle that is not newly spawned keeps its velocity unchanged; a newly
spawned particle (age below a small threshold proportional to `delta`)
first has its velocity set to `normalize(initialDirection) * initialSpeed`. -/
theorem velocity_step_field_blend (sample : Vec3 → Vec3)
    (u1 : StreamVelUniforms) (u2 : ShapeVelUniforms) (pos vel : Vec3) (age : ℝ) :
    (age ≤ u1.delta * 60.0 * 2.0 →
      inUnitCube (texCoordOf u1.gridMin u1.gridMax pos) →
      velocityStepStream sample u1 pos age vel =
        mix3 (glslNormalize u1.initialDirection * u1.initialSpeed)
          (sample (texCoordOf u1.gridMin u1.gridMax pos)) 0.3)
    ∧ (age ≤ u1.delta * 60.0 * 2.0 →
      ¬ inUnitCube (texCoordOf u1.gridMin u1.gridMax pos) →
      velocityStepStream sample u1 pos age vel =
        glslNormalize u1.initialDirection * u1.initialSpeed)
    ∧ (¬ age ≤ u1.delta * 60.0 * 2.0 →
      inUnitCube (texCoordOf u1.gridMin u1.gridMax pos) →
      velocityStepStream sample u1 pos age vel =
        mix3 vel (sample (texCoordOf u1.gridMin u1.gridMax pos)) 0.3)
    ∧ (¬ age ≤ u1.delta * 60.0 * 2.0 →
      ¬ inUnitCube (texCoordOf u1.gridMin u1.gridMax pos) →
      velocityStepStream sample u1 pos age vel = vel)
    ∧ ((age ≤ 0.0 ∨ age < u2.delta * 60.0 * 1.5) →
      inUnitCube (texCoordOf u2.gridMin u2.gridMax pos) →
      velocityStepShape sample u2 pos age vel =
        mix3 (glslNormalize u2.initialDirection * u2.initialSpeed)
          (sample (texCoordOf u2.gridMin u2.gridMax pos)) 0.2)
    ∧ ((age ≤ 0.0 ∨ age < u2.delta * 60.0 * 1.5) →
      ¬ inUnitCube (texCoordOf u2.gridMin u2.gridMax pos) →
      velocityStepShape sample u2 pos age vel =
        glslNormalize u2.initialDirection * u2.initialSpeed)
    ∧ (¬ (age ≤ 0.0 ∨ age < u2.delta * 60.0 * 1.5) →
      inUnitCube (texCoordOf u2.gridMin u2.gridMax pos) →
      velocityStepShape sample u2 pos age vel =
        mix3 vel (sample (texCoordOf u2.gridMin u2.gridMax pos)) 0.2)
    ∧ (¬ (age ≤ 0.0 ∨ age < u2.delta * 60.0 * 1.5) →
      ¬ inUnitCube (texCoordOf u2.gridMin u2.gridMax pos) →
      velocityStepShape sample u2 pos age vel = vel) := by
  refine ⟨fun h1 h2 => ?_, fun h1 h2 => ?_, fun h1 h2 => ?_, fun h1 h2 => ?_,
    fun h1 h2 => ?_, fun h1 h2 => ?_, fun h1 h2 => ?_, fun h1 h2 => ?_⟩
  · unfold velocityStepStream
    simp only [if_pos h1, if_pos h2]
  · unfold velocityStepStream
    simp only [if_pos h1, if_neg h2]
  · unfold velocityStepStream
    simp only [if_neg h1, if_pos h2]
  · unfold velocityStepStream
    simp only [if_neg h1, if_neg h2]
  · unfold velocityStepShape
    simp only [if_pos h1, if_pos h2]
  · unfold velocityStepShape
    simp only [if_pos h1, if_neg h2]
  · unfold velocityStepShape
    simp only [if_neg h1, if_pos h2]
  · unfold velocityStepShape
    simp only [if_neg h1, if_neg h2]

/-- Witness for C5: a newly spawned particle at the grid origin is blended
from its initial velocity; an old particle far outside the grid keeps its
velocity. -/
theorem velocity_step_witness :
    velocityStepStream (fun _ => ⟨0, 0, 0⟩) ⟨0, 1, ⟨0, 0, 0⟩, ⟨1, 1, 1⟩, ⟨1, 0, 0⟩, 1, 0⟩
        ⟨0, 0, 0⟩ 0 ⟨5, 0, 0⟩ =
      mix3 (glslNormalize (⟨1, 0, 0⟩ : Vec3) * (1 : ℝ))
        ((fun _ => (⟨0, 0, 0⟩ : Vec3))
          (texCoordOf ⟨0, 0, 0⟩ ⟨1, 1, 1⟩ ⟨0, 0, 0⟩)) 0.3
    ∧ velocityStepShape (fun _ => ⟨0, 0, 0⟩) ⟨0, 1, ⟨0, 0, 0⟩, ⟨1, 1, 1⟩, ⟨1, 0, 0⟩, 1⟩
        ⟨9, 9, 9⟩ 100 ⟨5, 0, 0⟩ = ⟨5, 0, 0⟩ := by
  constructor
  · refine (velocity_step_field_blend (fun _ => ⟨0, 0, 0⟩)
      ⟨0, 1, ⟨0, 0, 0⟩, ⟨1, 1, 1⟩, ⟨1, 0, 0⟩, 1, 0⟩
      ⟨0, 1, ⟨0, 0, 0⟩, ⟨1, 1, 1⟩, ⟨1, 0, 0⟩, 1⟩ ⟨0, 0, 0⟩ ⟨5, 0, 0⟩ 0).1 ?_ ?_
    · norm_num
    · unfold inUnitCube texCoordOf
      norm_num
  · refine (velocity_step_field_blend (fun _ => ⟨0, 0, 0⟩)
      ⟨0, 1, ⟨0, 0, 0⟩, ⟨1, 1, 1⟩, ⟨1, 0, 0⟩, 1, 0⟩
      ⟨0, 1, ⟨0, 0, 0⟩, ⟨1, 1, 1⟩, ⟨1, 0, 0⟩, 1⟩ ⟨9, 9, 9⟩ ⟨5, 0, 0⟩ 100).2.2.2.2.2.2.2 ?_ ?_
    · rw [not_or]
      constructor <;> norm_num
    · unfold inUnitCube texCoordOf
      norm_num

/-- Witness for C4 on a 2³ grid with no mesh: the length formula and the
alpha entry of cell `(1,1,1)`. -/
theorem potential_flow_layout_witness :
    (2 : ℕ) ≤ 2 ∧
    (generateData none FlowMethod.potential 2).length = 4 * (2 * 2 * 2) ∧
    (generateData none FlowMethod.potential 2)[4 * (1 * 2 * 2 + 1 * 2 + 1) + 3]? =
      some (0 : ℝ) := by
  refine ⟨le_refl 2, (potential_flow_layout none 2 (le_refl 2)).1, ?_⟩
  exact (((potential_flow_layout none 2 (le_refl 2)).2 1 1 1
    (by omega) (by omega) (by omega)).2.2.2.2.2)

/-! ## ParticleSystem (src/ParticleSystem.js and the streamline variant)

The repository carries two versions of the class: the shaped-emitter one in
`src/ParticleSystem.js` (`WIDTH = 256`, `emissionShape`/`emissionRadius`
uniforms) and a streamline one (`WIDTH = 128`, plane-emitter uniforms).
Both are modelled; GPU render targets are abstracted as `Texture` handles
and `gpuCompute.compute()` as a pass counter driving the double buffer. -/

/-- Abstract GPU texture handle. -/
structure Texture where
  id : ℕ

/-- Position-pass uniform values of the shaped-emitter `ParticleSystem`. -/
structure ShapePosUniformState where
  time : ℝ
  delta : ℝ
  maxAge : ℝ
  emitterPos : Vec3
  boundsMin : Vec3
  boundsMax : Vec3
  speedMultiplier : ℝ
  emissionShape : ℤ
  emissionRadius : ℝ

/-- Velocity-pass uniform values of the shaped-emitter `ParticleSystem`. -/
structure ShapeVelUniformState where
  time : ℝ
  delta : ℝ
  gridMin : Vec3
  gridMax : Vec3
  initialDirection : Vec3
  initialSpeed : ℝ
  velocityField : Option Texture

/-- The mutable state of the shaped-emitter `ParticleSystem` that the claims
concern: the compute-texture width, the particle count, both uniform
blocks, the display material's texture slots, and the number of executed
compute passes. -/
structure ParticleSystemState where
  width : ℕ
  count : ℕ
  posU : ShapePosUniformState
  velU : ShapeVelUniformState
  displayPosTexture : Option Texture
  displayVelTexture : Option Texture
  computePasses : ℕ

namespace ParticleSystem

/-- The state after the shaped-emitter constructor: `WIDTH = 256`,
`COUNT = WIDTH * WIDTH`, and the uniform initial values of `initGPU`. -/
def initial : ParticleSystemState where
  width := 256
  count := 256 * 256
  posU :=
    { time := 0.0, delta := 0.0, maxAge := 300.0, emitterPos := ⟨-1, 0, 0⟩,
      boundsMin := ⟨-2, -2, -2⟩, boundsMax := ⟨2, 2, 2⟩,
      speedMultiplier := 1.0, emissionShape := 0, emissionRadius := 0.2 }
  velU :=
    { time := 0.0, delta := 0.0, gridMin := ⟨-1, -1, -1⟩, gridMax := ⟨1, 1, 1⟩,
      initialDirection := ⟨1, 0, 0⟩, initialSpeed := 1.0, velocityField := none }
  displayPosTexture := none
  displayVelTexture := none
  computePasses := 0

/-- Source: `ParticleSystem.update(time, deltaTime)`: early-returns when the
velocity field's texture has not been generated; otherwise writes the time
and delta uniforms, binds the field texture, runs one compute pass, and
rebinds the display material's textures to the current render targets. -/
def update (s : ParticleSystemState) (fieldTexture : Option Texture)
    (time deltaTime : ℝ) : ParticleSystemState :=
  match fieldTexture with
  | none => s
  | some tex =>
      { s with
        posU := { s.posU with time := time, delta := deltaTime }
        velU := { s.velU with
                  time := time
                  delta := deltaTime
                  velocityField := some tex }
        computePasses := s.computePasses + 1
        displayPosTexture := some ⟨s.computePasses + 1⟩
        displayVelTexture := some ⟨s.computePasses + 1⟩ }

/-- The optional keys of the `params` object passed to
`ParticleSystem.updateParams`. -/
structure UpdateParams where
  emitterPos : Option Vec3
  lifespan : Option ℝ
  speedMultiplier : Option ℝ
  emissionRate : Option ℝ
  emissionShape : Option ℤ
  emissionRadius : Option ℝ

/-- Source: `if (params.emitterPos) this.positionUniforms['emitterPos'].value.copy(...)`:
an object argument is always truthy when the key is present. -/
def stepEmitterPos (s : ParticleSystemState) (o : Option Vec3) :
    ParticleSystemState :=
  match o with
  | some v => { s with posU := { s.posU with emitterPos := v } }
  | none => s

/-- Source: `if (params.lifespan) this.positionUniforms['maxAge'].value = params.lifespan`:
number truthiness, falsy exactly at `0`. -/
def stepLifespan (s : ParticleSystemState) (o : Option ℝ) :
    ParticleSystemState :=
  match o with
  | some v => if v ≠ 0 then { s with posU := { s.posU with maxAge := v } } else s
  | none => s

/-- Source: `if (params.speedMultiplier) ...`: number truthiness. -/
def stepSpeedMultiplier (s : ParticleSystemState) (o : Option ℝ) :
    ParticleSystemState :=
  match o with
  | some v =>
      if v ≠ 0 then { s with posU := { s.posU with speedMultiplier := v } } else s
  | none => s

/-- Source: `if (params.emissionRate) { ... }`: the branch body is a comment only,
so nothing is modified either way. -/
def stepEmissionRate (s : ParticleSystemState) (o : Option ℝ) :
    ParticleSystemState :=
  match o with
  | some _ => s
  | none => s

/-- Source: `if (params.emissionShape !== undefined) ...`: explicit undefined
check, so the value `0` is accepted. -/
def stepEmissionShape (s : ParticleSystemState) (o : Option ℤ) :
    ParticleSystemState :=
  match o with
  | some v => { s with posU := { s.posU with emissionShape := v } }
  | none => s

/-- Source: `if (params.emissionRadius !== undefined) ...`: explicit undefined
check. -/
def stepEmissionRadius (s : ParticleSystemState) (o : Option ℝ) :
    ParticleSystemState :=
  match o with
  | some v => { s with posU := { s.posU with emissionRadius := v } }
  | none => s

/-- Source: `ParticleSystem.updateParams`: the five guarded assignments of the
source, executed in order. -/
def updateParams (s : ParticleSystemState) (p : UpdateParams) :
    ParticleSystemState :=
  stepEmissionRadius
    (stepEmissionShape
      (stepEmissionRate
        (stepSpeedMultiplier
          (stepLifespan
            (stepEmitterPos s p.emitterPos)
            p.lifespan)
          p.speedMultiplier)
        p.emissionRate)
      p.emissionShape)
    p.emissionRadius

theorem stepEmitterPos_width (s : ParticleSystemState) (o : Option Vec3) :
    (stepEmitterPos s o).width = s.width := by cases o <;> rfl

theorem stepEmitterPos_count (s : ParticleSystemState) (o : Option Vec3) :
    (stepEmitterPos s o).count = s.count := by cases o <;> rfl

theorem stepEmitterPos_maxAge (s : ParticleSystemState) (o : Option Vec3) :
    (stepEmitterPos s o).posU.maxAge = s.posU.maxAge := by cases o <;> rfl

theorem stepEmitterPos_speedMultiplier (s : ParticleSystemState) (o : Option Vec3) :
    (stepEmitterPos s o).posU.speedMultiplier = s.posU.speedMultiplier := by
  cases o <;> rfl

theorem stepEmitterPos_emissionShape (s : ParticleSystemState) (o : Option Vec3) :
    (stepEmitterPos s o).posU.emissionShape = s.posU.emissionShape := by
  cases o <;> rfl

theorem stepEmitterPos_emissionRadius (s : ParticleSystemState) (o : Option Vec3) :
    (stepEmitterPos s o).posU.emissionRadius = s.posU.emissionRadius := by
  cases o <;> rfl

theorem stepLifespan_width (s : ParticleSystemState) (o : Option ℝ) :
    (stepLifespan s o).width = s.width := by
  unfold stepLifespan
  cases o <;> (try dsimp only) <;> (try split_ifs) <;> rfl

theorem stepLifespan_count (s : ParticleSystemState) (o : Option ℝ) :
    (stepLifespan s o).count = s.count := by
  unfold stepLifespan
  cases o <;> (try dsimp only) <;> (try split_ifs) <;> rfl

theorem stepLifespan_emitterPos (s : ParticleSystemState) (o : Option ℝ) :
    (stepLifespan s o).posU.emitterPos = s.posU.emitterPos := by
  unfold stepLifespan
  cases o <;> (try dsimp only) <;> (try split_ifs) <;> rfl

theorem stepLifespan_speedMultiplier (s : ParticleSystemState) (o : Option ℝ) :
    (stepLifespan s o).posU.speedMultiplier = s.posU.speedMultiplier := by
  unfold stepLifespan
  cases o <;> (try dsimp only) <;> (try split_ifs) <;> rfl

theorem stepLifespan_emissionShape (s : ParticleSystemState) (o : Option ℝ) :
    (stepLifespan s o).posU.emissionShape = s.posU.emissionShape := by
  unfold stepLifespan
  cases o <;> (try dsimp only) <;> (try split_ifs) <;> rfl

theorem stepLifespan_emissionRadius (s : ParticleSystemState) (o : Option ℝ) :
    (stepLifespan s o).posU.emissionRadius = s.posU.emissionRadius := by
  unfold stepLifespan
  cases o <;> (try dsimp only) <;> (try split_ifs) <;> rfl

theorem stepLifespan_some_zero (s : ParticleSystemState) :
    stepLifespan s (some 0) = s := by
  unfold stepLifespan
  simp

theorem stepSpeedMultiplier_width (s : ParticleSystemState) (o : Option ℝ) :
    (stepSpeedMultiplier s o).width = s.width := by
  unfold stepSpeedMultiplier
  cases o <;> (try dsimp only) <;> (try split_ifs) <;> rfl

theorem stepSpeedMultiplier_count (s : ParticleSystemState) (o : Option ℝ) :
    (stepSpeedMultiplier s o).count = s.count := by
  unfold stepSpeedMultiplier
  cases o <;> (try dsimp only) <;> (try split_ifs) <;> rfl

theorem stepSpeedMultiplier_emitterPos (s : ParticleSystemState) (o : Option ℝ) :
    (stepSpeedMultiplier s o).posU.emitterPos = s.posU.emitterPos := by
  unfold stepSpeedMultiplier
  cases o <;> (try dsimp only) <;> (try split_ifs) <;> rfl

theorem stepSpeedMultiplier_maxAge (s : ParticleSystemState) (o : Option ℝ) :
    (stepSpeedMultiplier s o).posU.maxAge = s.posU.maxAge := by
  unfold stepSpeedMultiplier
  cases o <;> (try dsimp only) <;> (try split_ifs) <;> rfl

theorem stepSpeedMultiplier_emissionShape (s : ParticleSystemState) (o : Option ℝ) :
    (stepSpeedMultiplier s o).posU.emissionShape = s.posU.emissionShape := by
  unfold stepSpeedMultiplier
  cases o <;> (try dsimp only) <;> (try split_ifs) <;> rfl

theorem stepSpeedMultiplier_emissionRadius (s : ParticleSystemState) (o : Option ℝ) :
    (stepSpeedMultiplier s o).posU.emissionRadius = s.posU.emissionRadius := by
  unfold stepSpeedMultiplier
  cases o <;> (try dsimp only) <;> (try split_ifs) <;> rfl

theorem stepSpeedMultiplier_some_zero (s : ParticleSystemState) :
    stepSpeedMultiplier s (some 0) = s := by
  unfold stepSpeedMultiplier
  simp

theorem stepEmissionRate_eq (s : ParticleSystemState) (o : Option ℝ) :
    stepEmissionRate s o = s := by cases o <;> rfl

theorem stepEmissionShape_width (s : ParticleSystemState) (o : Option ℤ) :
    (stepEmissionShape s o).width = s.width := by cases o <;> rfl

theorem stepEmissionShape_count (s : ParticleSystemState) (o : Option ℤ) :
    (stepEmissionShape s o).count = s.count := by cases o <;> rfl

theorem stepEmissionShape_emitterPos (s : ParticleSystemState) (o : Option ℤ) :
    (stepEmissionShape s o).posU.emitterPos = s.posU.emitterPos := by
  cases o <;> rfl

theorem stepEmissionShape_maxAge (s : ParticleSystemState) (o : Option ℤ) :
    (stepEmissionShape s o).posU.maxAge = s.posU.maxAge := by cases o <;> rfl

theorem stepEmissionShape_speedMultiplier (s : ParticleSystemState) (o : Option ℤ) :
    (stepEmissionShape s o).posU.speedMultiplier = s.posU.speedMultiplier := by
  cases o <;> rfl

theorem stepEmissionShape_emissionRadius (s : ParticleSystemState) (o : Option ℤ) :
    (stepEmissionShape s o).posU.emissionRadius = s.posU.emissionRadius := by
  cases o <;> rfl

theorem stepEmissionRadius_width (s : ParticleSystemState) (o : Option ℝ) :
    (stepEmissionRadius s o).width = s.width := by cases o <;> rfl

theorem stepEmissionRadius_count (s : ParticleSystemState) (o : Option ℝ) :
    (stepEmissionRadius s o).count = s.count := by cases o <;> rfl

theorem stepEmissionRadius_emitterPos (s : ParticleSystemState) (o : Option ℝ) :
    (stepEmissionRadius s o).posU.emitterPos = s.posU.emitterPos := by
  cases o <;> rfl

theorem stepEmissionRadius_maxAge (s : ParticleSystemState) (o : Option ℝ) :
    (stepEmissionRadius s o).posU.maxAge = s.posU.maxAge := by cases o <;> rfl

theorem stepEmissionRadius_speedMultiplier (s : ParticleSystemState) (o : Option ℝ) :
    (stepEmissionRadius s o).posU.speedMultiplier = s.posU.speedMultiplier := by
  cases o <;> rfl

theorem stepEmissionRadius_emissionShape (s : ParticleSystemState) (o : Option ℝ) :
    (stepEmissionRadius s o).posU.emissionShape = s.posU.emissionShape := by
  cases o <;> rfl

end ParticleSystem

/-- Position-pass uniform values of the streamline `ParticleSystem`. -/
structure StreamPosUniformState where
  time : ℝ
  delta : ℝ
  maxAge : ℝ
  emitterPos : Vec3
  emitterWidth : ℝ
  emitterHeight : ℝ
  boundsMin : Vec3
  boundsMax : Vec3
  speedMultiplier : ℝ

/-- Velocity-pass uniform values of the streamline `ParticleSystem`. -/
structure StreamVelUniformState where
  time : ℝ
  delta : ℝ
  gridMin : Vec3
  gridMax : Vec3
  initialDirection : Vec3
  initialSpeed : ℝ
  velocityField : Option Texture
  dragCoefficient : ℝ

/-- The mutable state of the streamline `ParticleSystem` variant. -/
structure StreamSystemState where
  width : ℕ
  count : ℕ
  emitterPosX : ℝ
  emitterPosY : ℝ
  emitterPosZ : ℝ
  posU : StreamPosUniformState
  velU : StreamVelUniformState
  displayPosTexture : Option Texture
  displayVelTexture : Option Texture
  computePasses : ℕ

namespace StreamSystem

/-- The state after the streamline constructor: `WIDTH = 128`,
`COUNT = WIDTH * WIDTH`. -/
def initial : StreamSystemState where
  width := 128
  count := 128 * 128
  emitterPosX := -2.0
  emitterPosY := 0.0
  emitterPosZ := 0.0
  posU :=
    { time := 0.0, delta := 0.0, maxAge := 500.0, emitterPos := ⟨-2.0, 0.0, 0.0⟩,
      emitterWidth := 1.5, emitterHeight := 1.5,
      boundsMin := ⟨-5, -5, -5⟩, boundsMax := ⟨5, 5, 5⟩, speedMultiplier := 2.0 }
  velU :=
    { time := 0.0, delta := 0.0, gridMin := ⟨-1, -1, -1⟩, gridMax := ⟨1, 1, 1⟩,
      initialDirection := ⟨1, 0, 0⟩, initialSpeed := 0.5, velocityField := none,
      dragCoefficient := 0.85 }
  displayPosTexture := none
  displayVelTexture := none
  computePasses := 0

/-- Source: `update` of the streamline variant: identical guard and body shape. -/
def update (s : StreamSystemState) (fieldTexture : Option Texture)
    (time deltaTime : ℝ) : StreamSystemState :=
  match fieldTexture with
  | none => s
  | some tex =>
      { s with
        posU := { s.posU with time := time, delta := deltaTime }
        velU := { s.velU with
                  time := time
                  delta := deltaTime
                  velocityField := some tex }
        computePasses := s.computePasses + 1
        displayPosTexture := some ⟨s.computePasses + 1⟩
        displayVelTexture := some ⟨s.computePasses + 1⟩ }

/-- The optional keys of the streamline variant's `updateParams` params. -/
structure UpdateParams where
  emitterPos : Option Vec3
  lifespan : Option ℝ
  speedMultiplier : Option ℝ
  emitterWidth : Option ℝ
  emitterHeight : Option ℝ

/-- Source: `if (params.emitterPos) { ... }`: set the uniform and mirror into the
`emitterPosX/Y/Z` fields. -/
def stepEmitterPos (s : StreamSystemState) (o : Option Vec3) :
    StreamSystemState :=
  match o with
  | some v =>
      { s with
        posU := { s.posU with emitterPos := v }
        emitterPosX := v.x
        emitterPosY := v.y
        emitterPosZ := v.z }
  | none => s

/-- Source: `if (params.lifespan) ...`: number truthiness. -/
def stepLifespan (s : StreamSystemState) (o : Option ℝ) : StreamSystemState :=
  match o with
  | some v => if v ≠ 0 then { s with posU := { s.posU with maxAge := v } } else s
  | none => s

/-- Source: `if (params.speedMultiplier) ...`: number truthiness. -/
def stepSpeedMultiplier (s : StreamSystemState) (o : Option ℝ) :
    StreamSystemState :=
  match o with
  | some v =>
      if v ≠ 0 then { s with posU := { s.posU with speedMultiplier := v } } else s
  | none => s

/-- Source: `if (params.emitterWidth) ...`: number truthiness. -/
def stepEmitterWidth (s : StreamSystemState) (o : Option ℝ) :
    StreamSystemState :=
  match o with
  | some v =>
      if v ≠ 0 then { s with posU := { s.posU with emitterWidth := v } } else s
  | none => s

/-- Source: `if (params.emitterHeight) ...`: number truthiness. -/
def stepEmitterHeight (s : StreamSystemState) (o : Option ℝ) :
    StreamSystemState :=
  match o with
  | some v =>
      if v ≠ 0 then { s with posU := { s.posU with emitterHeight := v } } else s
  | none => s

/-- Source: `updateParams` of the streamline variant: the five guarded assignments
of the source, executed in order. -/
def updateParams (s : StreamSystemState) (p : UpdateParams) :
    StreamSystemState :=
  stepEmitterHeight
    (stepEmitterWidth
      (stepSpeedMultiplier
        (stepLifespan
          (stepEmitterPos s p.emitterPos)
          p.lifespan)
        p.speedMultiplier)
      p.emitterWidth)
    p.emitterHeight

theorem stream_stepEmitterPos_width (s : StreamSystemState) (o : Option Vec3) :
    (stepEmitterPos s o).width = s.width := by cases o <;> rfl

theorem stream_stepEmitterPos_count (s : StreamSystemState) (o : Option Vec3) :
    (stepEmitterPos s o).count = s.count := by cases o <;> rfl

theorem stream_stepLifespan_width (s : StreamSystemState) (o : Option ℝ) :
    (stepLifespan s o).width = s.width := by
  unfold stepLifespan
  cases o <;> (try dsimp only) <;> (try split_ifs) <;> rfl

theorem stream_stepLifespan_count (s : StreamSystemState) (o : Option ℝ) :
    (stepLifespan s o).count = s.count := by
  unfold stepLifespan
  cases o <;> (try dsimp only) <;> (try split_ifs) <;> rfl

theorem stream_stepSpeedMultiplier_width (s : StreamSystemState) (o : Option ℝ) :
    (stepSpeedMultiplier s o).width = s.width := by
  unfold stepSpeedMultiplier
  cases o <;> (try dsimp only) <;> (try split_ifs) <;> rfl

theorem stream_stepSpeedMultiplier_count (s : StreamSystemState) (o : Option ℝ) :
    (stepSpeedMultiplier s o).count = s.count := by
  unfold stepSpeedMultiplier
  cases o <;> (try dsimp only) <;> (try split_ifs) <;> rfl

theorem stepEmitterWidth_width (s : StreamSystemState) (o : Option ℝ) :
    (stepEmitterWidth s o).width = s.width := by
  unfold stepEmitterWidth
  cases o <;> (try dsimp only) <;> (try split_ifs) <;> rfl

theorem stepEmitterWidth_count (s : StreamSystemState) (o : Option ℝ) :
    (stepEmitterWidth s o).count = s.count := by
  unfold stepEmitterWidth
  cases o <;> (try dsimp only) <;> (try split_ifs) <;> rfl

theorem stepEmitterHeight_width (s : StreamSystemState) (o : Option ℝ) :
    (stepEmitterHeight s o).width = s.width := by
  unfold stepEmitterHeight
  cases o <;> (try dsimp only) <;> (try split_ifs) <;> rfl

theorem stepEmitterHeight_count (s : StreamSystemState) (o : Option ℝ) :
    (stepEmitterHeight s o).count = s.count := by
  unfold stepEmitterHeight
  cases o <;> (try dsimp only) <;> (try split_ifs) <;> rfl

end StreamSystem

/-- C7: in both `ParticleSystem` versions the particle count is fixed at
construction at `COUNT = WIDTH * WIDTH` and no later operation changes it;
in particular `updateParams` called with an `emissionRate` value (and no
other key) changes nothing at all. -/
theorem particle_count_fixed :
    ParticleSystem.initial.count =
      ParticleSystem.initial.width * ParticleSystem.initial.width
    ∧ ParticleSystem.initial.width = 256
    ∧ StreamSystem.initial.count =
      StreamSystem.initial.width * StreamSystem.initial.width
    ∧ StreamSystem.initial.width = 128
    ∧ (∀ (s : ParticleSystemState) (ft : Option Texture) (t d : ℝ),
        (ParticleSystem.update s ft t d).width = s.width ∧
        (ParticleSystem.update s ft t d).count = s.count)
    ∧ (∀ (s : ParticleSystemState) (p : ParticleSystem.UpdateParams),
        (ParticleSystem.updateParams s p).width = s.width ∧
        (ParticleSystem.updateParams s p).count = s.count)
    ∧ (∀ (s : ParticleSystemState) (r : ℝ),
        ParticleSystem.updateParams s ⟨none, none, none, some r, none, none⟩ = s)
    ∧ (∀ (s : StreamSystemState) (ft : Option Texture) (t d : ℝ),
        (StreamSystem.update s ft t d).width = s.width ∧
        (StreamSystem.update s ft t d).count = s.count)
    ∧ (∀ (s : StreamSystemState) (p : StreamSystem.UpdateParams),
        (StreamSystem.updateParams s p).width = s.width ∧
        (StreamSystem.updateParams s p).count = s.count) := by
  refine ⟨rfl, rfl, rfl, rfl, ?_, ?_, ?_, ?_, ?_⟩
  · intro s ft t d
    cases ft <;> exact ⟨rfl, rfl⟩
  · intro s p
    constructor <;>
      simp only [ParticleSystem.updateParams,
        ParticleSystem.stepEmissionRadius_width, ParticleSystem.stepEmissionRadius_count,
        ParticleSystem.stepEmissionShape_width, ParticleSystem.stepEmissionShape_count,
        ParticleSystem.stepEmissionRate_eq,
        ParticleSystem.stepSpeedMultiplier_width, ParticleSystem.stepSpeedMultiplier_count,
        ParticleSystem.stepLifespan_width, ParticleSystem.stepLifespan_count,
        ParticleSystem.stepEmitterPos_width, ParticleSystem.stepEmitterPos_count]
  · intro s r
    rfl
  · intro s ft t d
    cases ft <;> exact ⟨rfl, rfl⟩
  · intro s p
    constructor <;>
      simp only [StreamSystem.updateParams,
        StreamSystem.stepEmitterHeight_width, StreamSystem.stepEmitterHeight_count,
        StreamSystem.stepEmitterWidth_width, StreamSystem.stepEmitterWidth_count,
        StreamSystem.stream_stepSpeedMultiplier_width, StreamSystem.stream_stepSpeedMultiplier_count,
        StreamSystem.stream_stepLifespan_width, StreamSystem.stream_stepLifespan_count,
        StreamSystem.stream_stepEmitterPos_width, StreamSystem.stream_stepEmitterPos_count]

/-- C8: `ParticleSystem.update` is a no-op — no uniform write, no compute
pass, no display-texture rebind — while the velocity field's 3D texture is
still missing, in both versions of the class. -/
theorem update_noop_without_field (s : ParticleSystemState)
    (s2 : StreamSystemState) (t d : ℝ) :
    ParticleSystem.update s none t d = s ∧ StreamSystem.update s2 none t d = s2 :=
  ⟨rfl, rfl⟩

/-- C9: `updateParams` guards `emitterPos`, `lifespan` and
`speedMultiplier` with truthiness, so passing `lifespan = 0` or
`speedMultiplier = 0` leaves `maxAge` resp. `speedMultiplier` unchanged,
while `emissionShape` and `emissionRadius` use `!== undefined` checks and
accept `0`; any key absent from the params object leaves its uniform
unchanged. -/
theorem update_params_truthiness (s : ParticleSystemState)
    (p : ParticleSystem.UpdateParams) :
    (p.lifespan = some 0 →
      (ParticleSystem.updateParams s p).posU.maxAge = s.posU.maxAge)
    ∧ (p.speedMultiplier = some 0 →
      (ParticleSystem.updateParams s p).posU.speedMultiplier =
        s.posU.speedMultiplier)
    ∧ (∀ k : ℤ, p.emissionShape = some k →
      (ParticleSystem.updateParams s p).posU.emissionShape = k)
    ∧ (∀ r : ℝ, p.emissionRadius = some r →
      (ParticleSystem.updateParams s p).posU.emissionRadius = r)
    ∧ (p.emitterPos = none →
      (ParticleSystem.updateParams s p).posU.emitterPos = s.posU.emitterPos)
    ∧ (p.lifespan = none →
      (ParticleSystem.updateParams s p).posU.maxAge = s.posU.maxAge)
    ∧ (p.speedMultiplier = none →
      (ParticleSystem.updateParams s p).posU.speedMultiplier =
        s.posU.speedMultiplier)
    ∧ (p.emissionShape = none →
      (ParticleSystem.updateParams s p).posU.emissionShape =
        s.posU.emissionShape)
    ∧ (p.emissionRadius = none →
      (ParticleSystem.updateParams s p).posU.emissionRadius =
        s.posU.emissionRadius) := by
  refine ⟨?_, ?_, ?_, ?_, ?_, ?_, ?_, ?_, ?_⟩
  · intro h
    simp only [ParticleSystem.updateParams, h,
      ParticleSystem.stepEmissionRadius_maxAge, ParticleSystem.stepEmissionShape_maxAge,
      ParticleSystem.stepEmissionRate_eq, ParticleSystem.stepSpeedMultiplier_maxAge,
      ParticleSystem.stepLifespan_some_zero, ParticleSystem.stepEmitterPos_maxAge]
  · intro h
    simp only [ParticleSystem.updateParams, h,
      ParticleSystem.stepEmissionRadius_speedMultiplier,
      ParticleSystem.stepEmissionShape_speedMultiplier,
      ParticleSystem.stepEmissionRate_eq, ParticleSystem.stepSpeedMultiplier_some_zero,
      ParticleSystem.stepLifespan_speedMultiplier,
      ParticleSystem.stepEmitterPos_speedMultiplier]
  · intro k h
    simp only [ParticleSystem.updateParams, h,
      ParticleSystem.stepEmissionRadius_emissionShape,
      ParticleSystem.stepEmissionShape]
  · intro r h
    simp only [ParticleSystem.updateParams, h, ParticleSystem.stepEmissionRadius]
  · intro h
    simp only [ParticleSystem.updateParams, h,
      ParticleSystem.stepEmissionRadius_emitterPos,
      ParticleSystem.stepEmissionShape_emitterPos,
      ParticleSystem.stepEmissionRate_eq, ParticleSystem.stepSpeedMultiplier_emitterPos,
      ParticleSystem.stepLifespan_emitterPos, ParticleSystem.stepEmitterPos]
  · intro h
    simp only [ParticleSystem.updateParams, h,
      ParticleSystem.stepEmissionRadius_maxAge, ParticleSystem.stepEmissionShape_maxAge,
      ParticleSystem.stepEmissionRate_eq, ParticleSystem.stepSpeedMultiplier_maxAge,
      ParticleSystem.stepLifespan, ParticleSystem.stepEmitterPos_maxAge]
  · intro h
    simp only [ParticleSystem.updateParams, h,
      ParticleSystem.stepEmissionRadius_speedMultiplier,
      ParticleSystem.stepEmissionShape_speedMultiplier,
      ParticleSystem.stepEmissionRate_eq, ParticleSystem.stepSpeedMultiplier,
      ParticleSystem.stepLifespan_speedMultiplier,
      ParticleSystem.stepEmitterPos_speedMultiplier]
  · intro h
    simp only [ParticleSystem.updateParams, h,
      ParticleSystem.stepEmissionRadius_emissionShape,
      ParticleSystem.stepEmissionShape,
      ParticleSystem.stepEmissionRate_eq,
      ParticleSystem.stepSpeedMultiplier_emissionShape,
      ParticleSystem.stepLifespan_emissionShape,
      ParticleSystem.stepEmitterPos_emissionShape]
  · intro h
    simp only [ParticleSystem.updateParams, h,
      ParticleSystem.stepEmissionRadius,
      ParticleSystem.stepEmissionShape_emissionRadius,
      ParticleSystem.stepEmissionRate_eq,
      ParticleSystem.stepSpeedMultiplier_emissionRadius,
      ParticleSystem.stepLifespan_emissionRadius,
      ParticleSystem.stepEmitterPos_emissionRadius]

/-- Witness for C9: on the freshly constructed system, passing
`lifespan = 0` and `speedMultiplier = 0` changes neither uniform, while
`emissionShape = 0` and `emissionRadius = 0` are accepted. -/
theorem update_params_truthiness_witness :
    (ParticleSystem.updateParams ParticleSystem.initial
      ⟨none, some 0, some 0, none, some 0, some 0⟩).posU.maxAge =
      ParticleSystem.initial.posU.maxAge
    ∧ (ParticleSystem.updateParams ParticleSystem.initial
      ⟨none, some 0, some 0, none, some 0, some 0⟩).posU.speedMultiplier =
      ParticleSystem.initial.posU.speedMultiplier
    ∧ (ParticleSystem.updateParams ParticleSystem.initial
      ⟨none, some 0, some 0, none, some 0, some 0⟩).posU.emissionShape = 0
    ∧ (ParticleSystem.updateParams ParticleSystem.initial
      ⟨none, some 0, some 0, none, some 0, some 0⟩).posU.emissionRadius = 0
    ∧ (ParticleSystem.updateParams ParticleSystem.initial
      ⟨none, some 0, some 0, none, some 0, some 0⟩).posU.emitterPos =
      ParticleSystem.initial.posU.emitterPos := by
  have h := update_params_truthiness ParticleSystem.initial
    ⟨none, some 0, some 0, none, some 0, some 0⟩
  exact ⟨h.1 rfl, h.2.1 rfl, h.2.2.1 0 rfl, h.2.2.2.1 0 rfl, h.2.2.2.2.1 rfl⟩

/-! ## OBJLoader (src/OBJLoader.js)

Geometry is modelled as its list of vertex positions.  `computeBoundingBox`
is the componentwise min/max over that list; for an empty geometry three.js
produces an empty box whose `getCenter`/`getSize` both return `(0,0,0)`. -/

/-- Componentwise minimum, as in `Box3.expandByPoint`. -/
def vmin (a b : Vec3) : Vec3 := ⟨min a.x b.x, min a.y b.y, min a.z b.z⟩

/-- Componentwise maximum. -/
def vmax (a b : Vec3) : Vec3 := ⟨max a.x b.x, max a.y b.y, max a.z b.z⟩

/-- The min corner of `geometry.boundingBox`, when the geometry is nonempty. -/
def bboxMinOf : List Vec3 → Option Vec3
  | [] => none
  | p :: ps => some (ps.foldl vmin p)

/-- The max corner of `geometry.boundingBox`, when the geometry is nonempty. -/
def bboxMaxOf : List Vec3 → Option Vec3
  | [] => none
  | p :: ps => some (ps.foldl vmax p)

/-- Source: `bbox.getCenter`: the midpoint of the corners, `(0,0,0)` for the empty
box. -/
def bboxCenter (l : List Vec3) : Vec3 :=
  match bboxMinOf l, bboxMaxOf l with
  | some mn, some mx => (mn + mx) * (0.5 : ℝ)
  | _, _ => 0

/-- Source: `bbox.getSize`: max corner minus min corner, `(0,0,0)` for the empty
box. -/
def bboxSize (l : List Vec3) : Vec3 :=
  match bboxMinOf l, bboxMaxOf l with
  | some mn, some mx => mx - mn
  | _, _ => 0

/-- Source: `Math.max(size.x, size.y, size.z)` of `OBJLoader.normalizeGeometry`. -/
def maxDimOf (l : List Vec3) : ℝ :=
  max (bboxSize l).x (max (bboxSize l).y (bboxSize l).z)

namespace OBJLoader

/-- Source: `OBJLoader.normalizeGeometry`: translate the geometry by minus its
bounding-box center, recompute the box, and scale by `scale = 1 / maxDim`;
when the scale factor is not finite — over the reals, exactly when
`maxDim = 0` — it throws `'Invalid scale factor computed'`, leaving the
geometry translated but unscaled.  (`computeBoundingBox` always assigns a
box, so the `'Could not compute bounding box'` branch cannot fire, and
`computeVertexNormals` does not move vertices.) -/
def normalizeGeometry (g : List Vec3) : Except (String × List Vec3) (List Vec3) :=
  let c := bboxCenter g
  let g1 := g.map fun p => p - c
  let maxDim := maxDimOf g1
  let scale := 1 / maxDim
  if maxDim = 0 then Except.error ("Invalid scale factor computed", g1)
  else Except.ok (g1.map fun p => p * scale)

/-- One node visited by `object.traverse` in `OBJLoader.processObject`:
whether `child.isMesh` holds, and the vertex positions of
`child.geometry`. -/
structure ObjChild where
  isMesh : Bool
  geom : List Vec3

/-- The mesh-extraction loop of `OBJLoader.processObject`: keep the first
mesh's geometry encountered in traversal order. -/
def firstMeshGeom (children : List ObjChild) : Option (List Vec3) :=
  children.foldl
    (fun acc c =>
      match acc with
      | some g => some g
      | none => if c.isMesh then some c.geom else none)
    none

/-- The loader state the claims concern: `this.currentMesh` and the meshes
in the scene. -/
structure LoaderState where
  currentMesh : Option (List Vec3)
  scene : List (List Vec3)

/-- Source: `scene.remove(previousMesh)`: drop the first occurrence. -/
def removeMesh (scene : List (List Vec3)) (m : List Vec3) : List (List Vec3) :=
  letI : DecidableEq (List Vec3) := Classical.decEq _
  scene.erase m

/-- Source: `OBJLoader.setMesh`: remove (and dispose) the previous mesh, then store
the new mesh and add it to the scene. -/
def setMesh (st : LoaderState) (m : List Vec3) : LoaderState :=
  { currentMesh := some m
    scene :=
      (match st.currentMesh with
       | some old => removeMesh st.scene old
       | none => st.scene) ++ [m] }

/-- Source: `OBJLoader.processObject`: take the first mesh geometry, throwing
`'No mesh found in OBJ file'` when there is none; otherwise normalize it
and install the result via `setMesh`.  The returned pair is the loader
state after the call together with the thrown error or resolved mesh. -/
def processObject (st : LoaderState) (children : List ObjChild) :
    LoaderState × Except String (List Vec3) :=
  match firstMeshGeom children with
  | none => (st, Except.error "No mesh found in OBJ file")
  | some g =>
      match normalizeGeometry g with
      | Except.error (e, _) => (st, Except.error e)
      | Except.ok g2 => (setMesh st g2, Except.ok g2)

/-- Source: `OBJLoader.loadFromFile`: `readResult = none` models the `FileReader`
`onerror` path; on a successful read the three.js OBJ parser — the oracle
`parse` — either throws (rejecting with its error) or yields the traversal
list handed to `processObject`, whose exception, if any, is caught and
rejected. -/
def loadFromFile (parse : String → Except String (List ObjChild))
    (st : LoaderState) (readResult : Option String) :
    LoaderState × Except String (List Vec3) :=
  match readResult with
  | none => (st, Except.error "FileReader error")
  | some text =>
      match parse text with
      | Except.error e => (st, Except.error e)
      | Except.ok obj => processObject st obj

end OBJLoader

/-- Whether an `Except` is a rejection. -/
def exceptFails {ε α : Type} : Except ε α → Bool
  | Except.error _ => true
  | Except.ok _ => false

/-- The rejection condition asserted by the claim: reader error, parse
failure, or no mesh in the parsed hierarchy. -/
def claimedRejection (parse : String → Except String (List OBJLoader.ObjChild))
    (readResult : Option String) : Prop :=
  match readResult with
  | none => True
  | some text =>
      match parse text with
      | Except.error _ => True
      | Except.ok obj => OBJLoader.firstMeshGeom obj = none

/-- The amended rejection condition: additionally, geometry normalization
may throw (degenerate geometry with non-finite scale factor). -/
def amendedRejection (parse : String → Except String (List OBJLoader.ObjChild))
    (readResult : Option String) : Prop :=
  match readResult with
  | none => True
  | some text =>
      match parse text with
      | Except.error _ => True
      | Except.ok obj =>
          match OBJLoader.firstMeshGeom obj with
          | none => True
          | some g => exceptFails (OBJLoader.normalizeGeometry g) = true

theorem vmin_sub (a b c : Vec3) : vmin (a - c) (b - c) = vmin a b - c := by
  simp only [vmin, Vec3.sub_def, Vec3.mk.injEq]
  exact ⟨min_sub_sub_right a.x b.x c.x, min_sub_sub_right a.y b.y c.y,
    min_sub_sub_right a.z b.z c.z⟩

theorem vmax_sub (a b c : Vec3) : vmax (a - c) (b - c) = vmax a b - c := by
  simp only [vmax, Vec3.sub_def, Vec3.mk.injEq]
  exact ⟨max_sub_sub_right a.x b.x c.x, max_sub_sub_right a.y b.y c.y,
    max_sub_sub_right a.z b.z c.z⟩

theorem vmin_mul (a b : Vec3) (s : ℝ) (hs : 0 ≤ s) :
    vmin (a * s) (b * s) = vmin a b * s := by
  simp only [vmin, Vec3.mul_r_def, Vec3.mk.injEq]
  exact ⟨(min_mul_of_nonneg a.x b.x hs).symm, (min_mul_of_nonneg a.y b.y hs).symm,
    (min_mul_of_nonneg a.z b.z hs).symm⟩

theorem vmax_mul (a b : Vec3) (s : ℝ) (hs : 0 ≤ s) :
    vmax (a * s) (b * s) = vmax a b * s := by
  simp only [vmax, Vec3.mul_r_def, Vec3.mk.injEq]
  exact ⟨(max_mul_of_nonneg a.x b.x hs).symm, (max_mul_of_nonneg a.y b.y hs).symm,
    (max_mul_of_nonneg a.z b.z hs).symm⟩

theorem foldl_vmin_sub (l : List Vec3) (a c : Vec3) :
    (l.map fun p => p - c).foldl vmin (a - c) = l.foldl vmin a - c := by
  induction l generalizing a with
  | nil => rfl
  | cons q t ih =>
      simp only [List.map_cons, List.foldl_cons]
      rw [vmin_sub]
      exact ih (vmin a q)

theorem foldl_vmax_sub (l : List Vec3) (a c : Vec3) :
    (l.map fun p => p - c).foldl vmax (a - c) = l.foldl vmax a - c := by
  induction l generalizing a with
  | nil => rfl
  | cons q t ih =>
      simp only [List.map_cons, List.foldl_cons]
      rw [vmax_sub]
      exact ih (vmax a q)

theorem foldl_vmin_mul (l : List Vec3) (a : Vec3) (s : ℝ) (hs : 0 ≤ s) :
    (l.map fun p : Vec3 => p * s).foldl vmin (a * s) = l.foldl vmin a * s := by
  induction l generalizing a with
  | nil => rfl
  | cons q t ih =>
      simp only [List.map_cons, List.foldl_cons]
      rw [vmin_mul _ _ _ hs]
      exact ih (vmin a q)

theorem foldl_vmax_mul (l : List Vec3) (a : Vec3) (s : ℝ) (hs : 0 ≤ s) :
    (l.map fun p : Vec3 => p * s).foldl vmax (a * s) = l.foldl vmax a * s := by
  induction l generalizing a with
  | nil => rfl
  | cons q t ih =>
      simp only [List.map_cons, List.foldl_cons]
      rw [vmax_mul _ _ _ hs]
      exact ih (vmax a q)

theorem foldl_vmin_le_vmax (l : List Vec3) (a b : Vec3)
    (hx : a.x ≤ b.x) (hy : a.y ≤ b.y) (hz : a.z ≤ b.z) :
    (l.foldl vmin a).x ≤ (l.foldl vmax b).x ∧
    (l.foldl vmin a).y ≤ (l.foldl vmax b).y ∧
    (l.foldl vmin a).z ≤ (l.foldl vmax b).z := by
  induction l generalizing a b with
  | nil => exact ⟨hx, hy, hz⟩
  | cons q t ih =>
      simp only [List.foldl_cons]
      refine ih (vmin a q) (vmax b q) ?_ ?_ ?_ <;> simp only [vmin, vmax]
      · exact (min_le_left _ _).trans (hx.trans (le_max_left _ _))
      · exact (min_le_left _ _).trans (hy.trans (le_max_left _ _))
      · exact (min_le_left _ _).trans (hz.trans (le_max_left _ _))

theorem bboxCenter_cons (p : Vec3) (ps : List Vec3) :
    bboxCenter (p :: ps) = (ps.foldl vmin p + ps.foldl vmax p) * (0.5 : ℝ) := rfl

theorem bboxSize_cons (p : Vec3) (ps : List Vec3) :
    bboxSize (p :: ps) = ps.foldl vmax p - ps.foldl vmin p := rfl

theorem bboxCenter_translate (p : Vec3) (ps : List Vec3) (c : Vec3) :
    bboxCenter ((p :: ps).map fun q => q - c) = bboxCenter (p :: ps) - c := by
  simp only [List.map_cons, bboxCenter_cons, foldl_vmin_sub, foldl_vmax_sub]
  simp only [Vec3.sub_def, Vec3.add_def, Vec3.mul_r_def, Vec3.mk.injEq]
  refine ⟨by ring, by ring, by ring⟩

theorem bboxSize_translate (p : Vec3) (ps : List Vec3) (c : Vec3) :
    bboxSize ((p :: ps).map fun q => q - c) = bboxSize (p :: ps) := by
  simp only [List.map_cons, bboxSize_cons, foldl_vmin_sub, foldl_vmax_sub]
  simp only [Vec3.sub_def, Vec3.mk.injEq]
  refine ⟨by ring, by ring, by ring⟩

theorem bboxCenter_mul (p : Vec3) (ps : List Vec3) (s : ℝ) (hs : 0 ≤ s) :
    bboxCenter ((p :: ps).map fun q : Vec3 => q * s) = bboxCenter (p :: ps) * s := by
  simp only [List.map_cons, bboxCenter_cons, foldl_vmin_mul _ _ _ hs,
    foldl_vmax_mul _ _ _ hs]
  simp only [Vec3.add_def, Vec3.mul_r_def, Vec3.mk.injEq]
  refine ⟨by ring, by ring, by ring⟩

theorem bboxSize_mul (p : Vec3) (ps : List Vec3) (s : ℝ) (hs : 0 ≤ s) :
    bboxSize ((p :: ps).map fun q : Vec3 => q * s) = bboxSize (p :: ps) * s := by
  simp only [List.map_cons, bboxSize_cons, foldl_vmin_mul _ _ _ hs,
    foldl_vmax_mul _ _ _ hs]
  simp only [Vec3.sub_def, Vec3.mul_r_def, Vec3.mk.injEq]
  refine ⟨by ring, by ring, by ring⟩

theorem maxDimOf_mul (p : Vec3) (ps : List Vec3) (s : ℝ) (hs : 0 ≤ s) :
    maxDimOf ((p :: ps).map fun q : Vec3 => q * s) = maxDimOf (p :: ps) * s := by
  unfold maxDimOf
  rw [bboxSize_mul p ps s hs]
  simp only [Vec3.mul_r_def]
  rw [← max_mul_of_nonneg _ _ hs, ← max_mul_of_nonneg _ _ hs]

theorem bboxSize_nonneg (p : Vec3) (ps : List Vec3) :
    0 ≤ (bboxSize (p :: ps)).x ∧ 0 ≤ (bboxSize (p :: ps)).y ∧
      0 ≤ (bboxSize (p :: ps)).z := by
  have h := foldl_vmin_le_vmax ps p p le_rfl le_rfl le_rfl
  simp only [bboxSize_cons, Vec3.sub_def]
  exact ⟨sub_nonneg.mpr h.1, sub_nonneg.mpr h.2.1, sub_nonneg.mpr h.2.2⟩

theorem maxDimOf_nonneg (p : Vec3) (ps : List Vec3) : 0 ≤ maxDimOf (p :: ps) := by
  have h := bboxSize_nonneg p ps
  exact le_trans h.1 (le_max_left _ _)

theorem maxDimOf_nil : maxDimOf ([] : List Vec3) = 0 := by
  unfold maxDimOf bboxSize bboxMinOf bboxMaxOf
  simp [Vec3.zero_def]

/-- C10: when `OBJLoader.normalizeGeometry` returns successfully, the
geometry's bounding-box center is the origin and its largest bounding-box
dimension equals `1`; when the computed scale factor is not finite it
throws `'Invalid scale factor computed'` and the geometry is left
translated by minus its original center but unscaled. -/
theorem normalize_geometry_spec (g : List Vec3) :
    (∀ g2, OBJLoader.normalizeGeometry g = Except.ok g2 →
      bboxCenter g2 = 0 ∧ maxDimOf g2 = 1)
    ∧ (∀ e g1, OBJLoader.normalizeGeometry g = Except.error (e, g1) →
      e = "Invalid scale factor computed" ∧
        g1 = g.map fun p => p - bboxCenter g) := by
  constructor
  · intro g2 hok
    unfold OBJLoader.normalizeGeometry at hok
    by_cases h0 : maxDimOf (g.map fun p => p - bboxCenter g) = 0
    · rw [if_pos h0] at hok
      exact absurd hok (by simp)
    · rw [if_neg h0] at hok
      have hg2 : g2 = (g.map fun p => p - bboxCenter g).map
          (fun p : Vec3 => p * (1 / maxDimOf (g.map fun p => p - bboxCenter g))) := by
        cases hok
        rfl
      cases g with
      | nil =>
          exfalso
          exact h0 (by simpa using maxDimOf_nil)
      | cons p ps =>
          set c := bboxCenter (p :: ps) with hc
          set md := maxDimOf ((p :: ps).map fun q => q - c) with hmd
          have hmd_eq : maxDimOf ((p :: ps).map fun q => q - c) =
              maxDimOf ((p - c) :: ps.map fun q => q - c) := by
            simp only [List.map_cons]
          have hnn : 0 ≤ md := by
            rw [hmd, hmd_eq]
            exact maxDimOf_nonneg _ _
          have hs : 0 ≤ 1 / md := by positivity
          constructor
          · rw [hg2]
            have h1 : ((p :: ps).map fun q => q - c) =
                (p - c) :: (ps.map fun q => q - c) := by
              simp only [List.map_cons]
            rw [h1, bboxCenter_mul _ _ _ hs, ← h1]
            rw [bboxCenter_translate p ps c, ← hc]
            simp only [Vec3.sub_def, Vec3.mul_r_def, Vec3.zero_def,
              Vec3.mk.injEq]
            refine ⟨by ring, by ring, by ring⟩
          · rw [hg2]
            have h1 : ((p :: ps).map fun q => q - c) =
                (p - c) :: (ps.map fun q => q - c) := by
              simp only [List.map_cons]
            rw [h1, maxDimOf_mul _ _ _ hs, ← h1, ← hmd]
            field_simp
  · intro e g1 herr
    unfold OBJLoader.normalizeGeometry at herr
    by_cases h0 : maxDimOf (g.map fun p => p - bboxCenter g) = 0
    · rw [if_pos h0] at herr
      have := Except.error.inj herr
      exact ⟨(congrArg Prod.fst this).symm, (congrArg Prod.snd this).symm⟩
    · rw [if_neg h0] at herr
      exact absurd herr (by simp)

/-- Witness for C10: the two-point geometry `{(-1,0,0), (1,0,0)}` is
normalized to `{(-1/2,0,0), (1/2,0,0)}`, centered with largest dimension
`1`; the one-point geometry `{(1,2,3)}` makes normalization throw after
the translation step. -/
theorem normalize_geometry_witness :
    OBJLoader.normalizeGeometry [(⟨-1, 0, 0⟩ : Vec3), ⟨1, 0, 0⟩] =
      Except.ok [⟨-(1 / 2 : ℝ), 0, 0⟩, ⟨1 / 2, 0, 0⟩]
    ∧ bboxCenter [(⟨-(1 / 2 : ℝ), 0, 0⟩ : Vec3), ⟨1 / 2, 0, 0⟩] = 0
    ∧ maxDimOf [(⟨-(1 / 2 : ℝ), 0, 0⟩ : Vec3), ⟨1 / 2, 0, 0⟩] = 1
    ∧ OBJLoader.normalizeGeometry [(⟨1, 2, 3⟩ : Vec3)] =
      Except.error ("Invalid scale factor computed", [⟨0, 0, 0⟩])
    ∧ [(⟨0, 0, 0⟩ : Vec3)] =
      [(⟨1, 2, 3⟩ : Vec3)].map fun p => p - bboxCenter [(⟨1, 2, 3⟩ : Vec3)] := by
  have hok : OBJLoader.normalizeGeometry [(⟨-1, 0, 0⟩ : Vec3), ⟨1, 0, 0⟩] =
      Except.ok [⟨-(1 / 2 : ℝ), 0, 0⟩, ⟨1 / 2, 0, 0⟩] := by
    unfold OBJLoader.normalizeGeometry
    norm_num [bboxCenter, bboxMinOf, bboxMaxOf, bboxSize, maxDimOf, vmin, vmax,
      Vec3.add_def, Vec3.sub_def, Vec3.mul_r_def]
  have herr : OBJLoader.normalizeGeometry [(⟨1, 2, 3⟩ : Vec3)] =
      Except.error ("Invalid scale factor computed", [⟨0, 0, 0⟩]) := by
    unfold OBJLoader.normalizeGeometry
    norm_num [bboxCenter, bboxMinOf, bboxMaxOf, bboxSize, maxDimOf, vmin, vmax,
      Vec3.add_def, Vec3.sub_def, Vec3.mul_r_def]
  have h1 := (normalize_geometry_spec [(⟨-1, 0, 0⟩ : Vec3), ⟨1, 0, 0⟩]).1 _ hok
  have h2 := (normalize_geometry_spec [(⟨1, 2, 3⟩ : Vec3)]).2 _ _ herr
  exact ⟨hok, h1.1, h1.2, herr, h2.2⟩

/-- Counterexample to C6 as stated: a file that reads fine, parses fine and
contains a mesh — a single-vertex (zero-extent) geometry — still makes
`loadFromFile` reject, via the `'Invalid scale factor computed'` throw of
`normalizeGeometry`, so rejection is not limited to the three listed
causes. -/
theorem load_reject_counterexample :
    exceptFails (OBJLoader.loadFromFile
      (fun _ => Except.ok [⟨true, [⟨1, 2, 3⟩]⟩]) ⟨none, []⟩ (some "cube")).2 = true
    ∧ ¬ claimedRejection (fun _ => Except.ok [⟨true, [⟨1, 2, 3⟩]⟩]) (some "cube") := by
  have hfm : OBJLoader.firstMeshGeom [⟨true, [⟨1, 2, 3⟩]⟩] = some [⟨1, 2, 3⟩] := rfl
  have herr : OBJLoader.normalizeGeometry [(⟨1, 2, 3⟩ : Vec3)] =
      Except.error ("Invalid scale factor computed", [⟨0, 0, 0⟩]) := by
    unfold OBJLoader.normalizeGeometry
    norm_num [bboxCenter, bboxMinOf, bboxMaxOf, bboxSize, maxDimOf, vmin, vmax,
      Vec3.add_def, Vec3.sub_def, Vec3.mul_r_def]
  constructor
  · show exceptFails (OBJLoader.processObject ⟨none, []⟩ [⟨true, [⟨1, 2, 3⟩]⟩]).2 = true
    unfold OBJLoader.processObject
    rw [hfm]
    dsimp only
    rw [herr]
    rfl
  · show ¬ OBJLoader.firstMeshGeom [⟨true, [⟨1, 2, 3⟩]⟩] = none
    rw [hfm]
    simp

/-- C6 (amended): `OBJLoader.loadFromFile` rejects exactly when the
`FileReader` errors, the OBJ text fails to parse, the parsed hierarchy
contains no mesh, or geometry normalization throws (degenerate geometry
with a non-finite scale factor); in every rejection case the loader's
`currentMesh` and the scene are left unchanged. -/
theorem load_reject_spec (parse : String → Except String (List OBJLoader.ObjChild))
    (st : OBJLoader.LoaderState) (readResult : Option String) :
    (exceptFails (OBJLoader.loadFromFile parse st readResult).2 = true ↔
      amendedRejection parse readResult)
    ∧ (exceptFails (OBJLoader.loadFromFile parse st readResult).2 = true →
      (OBJLoader.loadFromFile parse st readResult).1 = st) := by
  cases readResult with
  | none =>
      exact ⟨by simp [OBJLoader.loadFromFile, exceptFails, amendedRejection],
        fun _ => rfl⟩
  | some text =>
      cases hp : parse text with
      | error e =>
          constructor
          · simp [OBJLoader.loadFromFile, hp, exceptFails, amendedRejection]
          · intro _
            simp [OBJLoader.loadFromFile, hp]
      | ok obj =>
          cases hm : OBJLoader.firstMeshGeom obj with
          | none =>
              constructor
              · simp [OBJLoader.loadFromFile, hp, OBJLoader.processObject, hm,
                  exceptFails, amendedRejection]
              · intro _
                simp [OBJLoader.loadFromFile, hp, OBJLoader.processObject, hm]
          | some g =>
              cases hn : OBJLoader.normalizeGeometry g with
              | error pr =>
                  obtain ⟨e1, g1⟩ := pr
                  constructor
                  · simp [OBJLoader.loadFromFile, hp, OBJLoader.processObject, hm,
                      hn, exceptFails, amendedRejection]
                  · intro _
                    simp [OBJLoader.loadFromFile, hp, OBJLoader.processObject, hm, hn]
              | ok g2 =>
                  constructor
                  · simp [OBJLoader.loadFromFile, hp, OBJLoader.processObject, hm,
                      hn, exceptFails, amendedRejection]
                  · intro hcontra
                    exfalso
                    simp [OBJLoader.loadFromFile, hp, OBJLoader.processObject, hm,
                      hn, exceptFails] at hcontra

/-- Witness for C6 (amended) at the reader-error input: the load rejects
and the loader state is untouched. -/
theorem load_reject_witness :
    exceptFails (OBJLoader.loadFromFile
      (fun _ => Except.ok []) ⟨none, []⟩ none).2 = true
    ∧ (OBJLoader.loadFromFile (fun _ => Except.ok []) ⟨none, []⟩ none).1 =
      (⟨none, []⟩ : OBJLoader.LoaderState) := by
  have h := load_reject_spec (fun _ => Except.ok []) ⟨none, []⟩ none
  have h1 : exceptFails (OBJLoader.loadFromFile
      (fun _ => Except.ok []) ⟨none, []⟩ none).2 = true :=
    h.1.mpr trivial
  exact ⟨h1, h.2 h1⟩

end CFD
